import Mathlib

/-!
Shallow embedding of the guest-side VM-bus transport and command-marshaling
layer of the virtio dxgkrnl driver
(`src/common-modules/virtual-device/virtio_dxgkrnl/dxgvmbus.c`), together
with proofs about its message building, status translation, size
validation, RLE page encoding, channel selection and cleanup behaviour.

External effects (heap allocation, transport sends, channel locking,
guest memory mapping) are modelled as explicit events recorded in a trace;
the outcome of each fallible external step is supplied by oracle
parameters, so every encoder is embedded as a pure function from its
arguments and the oracle outcomes to its return value, its event trace and
the message contents it built.
-/

namespace Dxg

/-! ### POSIX errno values (from the kernel uapi headers, not under src/) -/

def EPERM : Int := 1

def ENOENT : Int := 2

def EBADF : Int := 9

def EAGAIN : Int := 11

def ENOMEM : Int := 12

def EACCES : Int := 13

def EEXIST : Int := 17

def ENODEV : Int := 19

def EINVAL : Int := 22

def EOVERFLOW : Int := 75

def EPROTOTYPE : Int := 91

def EOPNOTSUPP : Int := 95

def EINPROGRESS : Int := 115

def ENOTRECOVERABLE : Int := 131

/-! ### Constants from headers that are not under src/ -/

/-- Kernel page size on the targeted architecture (kernel header, not under
src/): 4096 bytes. -/
def PAGE_SIZE : Nat := 4096

/-- Modelled from the spec: the hard maximum packet size against which
caller-controlled payload sizes are validated.  Declared in `dxgvmbus.h`,
which is not under src/. -/
def DXG_MAX_VM_BUS_PACKET_SIZE : Nat := 131072

/-- Modelled from the spec: the inline (stack) buffer threshold of the
message builder; messages up to this size use the on-stack buffer,
larger ones are heap allocated.  Declared in `dxgvmbus.h`, not under
src/. -/
def VMBUSMESSAGEONSTACK : Nat := 64

/-- Modelled from the spec: the minimum negotiated protocol version from
which the extended message header is used.  Declared in `dxgvmbus.h`, not
under src/. -/
def DXGK_VMBUS_INTERFACE_VERSION : Nat := 40

/-- Modelled from the spec: maximum number of objects a GPU-side wait may
name.  Declared in the d3dkmt headers, which are not under src/. -/
def D3DDDI_MAX_OBJECT_WAITED_ON : Nat := 32

/-- Size in bytes of `struct d3dkmthandle` (a 32-bit opaque handle; header
not under src/). -/
def sizeof_d3dkmthandle : Nat := 4

/-- Size in bytes of a `u64` field. -/
def sizeof_u64 : Nat := 8

/-- Modelled from the spec: size of the extended message header
(`struct dxgvmb_ext_header`, not under src/), carrying the command offset
and the target vGPU identifier. -/
def sizeof_dxgvmb_ext_header : Nat := 24

/-- Modelled from the spec: size of the fixed part of
`struct dxgkvmb_command_signalsyncobject` (header not under src/). -/
def sizeof_dxgkvmb_command_signalsyncobject : Nat := 64

/-- Modelled from the spec: size of
`struct dxgkvmb_command_waitforsyncobjectfromgpu` (header not under src/);
it embeds one trailing `u64` fence value inside the fixed struct. -/
def sizeof_dxgkvmb_command_waitforsyncobjectfromgpu : Nat := 48

/-- Modelled from the spec: size of
`struct dxgkvmb_command_setiospaceregion` (header not under src/). -/
def sizeof_dxgkvmb_command_setiospaceregion : Nat := 40

/-- Modelled from the spec: size of the fixed part of
`struct dxgkvmb_command_createallocation` (header not under src/). -/
def sizeof_dxgkvmb_command_createallocation : Nat := 72

/-- Modelled from the spec: size of
`struct dxgkvmb_command_createallocation_allocinfo` (header not under
src/). -/
def sizeof_dxgkvmb_command_createallocation_allocinfo : Nat := 32

/-- Modelled from the spec: size of the fixed part of
`struct dxgkvmb_command_createhwqueue` (header not under src/); it embeds
one trailing private-data byte inside the fixed struct. -/
def sizeof_dxgkvmb_command_createhwqueue : Nat := 96

/-- Modelled from the spec: size of
`struct dxgkvmb_command_getallocationsize` (header not under src/). -/
def sizeof_dxgkvmb_command_getallocationsize : Nat := 48

/-! ### NT status words (headers not under src/) -/

/-- Interpret a 32-bit status word bit pattern as the signed `int`
`status.v` used by the code. -/
def int32 (n : Nat) : Int :=
  if n < 2147483648 then (n : Int) else (n : Int) - 4294967296

def STATUS_OBJECT_NAME_COLLISION : Int := int32 0xC0000035

def STATUS_NO_MEMORY : Int := int32 0xC0000017

def STATUS_INVALID_PARAMETER : Int := int32 0xC000000D

def STATUS_OBJECT_NAME_INVALID : Int := int32 0xC0000033

def STATUS_OBJECT_NAME_NOT_FOUND : Int := int32 0xC0000034

/-- Modelled from the spec: the spec classifies the timeout status as one
of the failure statuses translated by the status translator, so it is
given a (placeholder) status value with the error severity bit set; its
header is not under src/. -/
def STATUS_TIMEOUT : Int := int32 0xC0000102

def STATUS_BUFFER_TOO_SMALL : Int := int32 0xC0000023

def STATUS_DEVICE_REMOVED : Int := int32 0xC00002B6

def STATUS_ACCESS_DENIED : Int := int32 0xC0000022

def STATUS_NOT_SUPPORTED : Int := int32 0xC00000BB

def STATUS_ILLEGAL_INSTRUCTION : Int := int32 0xC000001D

def STATUS_INVALID_HANDLE : Int := int32 0xC0000008

def STATUS_GRAPHICS_ALLOCATION_BUSY : Int := int32 0xC01E0102

def STATUS_OBJECT_TYPE_MISMATCH : Int := int32 0xC0000024

def STATUS_NOT_IMPLEMENTED : Int := int32 0xC0000002

/-- `NT_SUCCESS(status)`: the signed status value is non-negative. -/
def nt_success (s : Int) : Bool := decide (0 ≤ s)

/-- The failure statuses named by the `switch` in `ntstatus2int`. -/
def listed_failure_statuses : List Int :=
  [STATUS_OBJECT_NAME_COLLISION, STATUS_NO_MEMORY, STATUS_INVALID_PARAMETER,
   STATUS_OBJECT_NAME_INVALID, STATUS_OBJECT_NAME_NOT_FOUND, STATUS_TIMEOUT,
   STATUS_BUFFER_TOO_SMALL, STATUS_DEVICE_REMOVED, STATUS_ACCESS_DENIED,
   STATUS_NOT_SUPPORTED, STATUS_ILLEGAL_INSTRUCTION, STATUS_INVALID_HANDLE,
   STATUS_GRAPHICS_ALLOCATION_BUSY, STATUS_OBJECT_TYPE_MISMATCH,
   STATUS_NOT_IMPLEMENTED]

/-- `ntstatus2int` from dxgvmbus.c: translate a host NT status word to a
POSIX return value. -/
def ntstatus2int (s : Int) : Int :=
  if nt_success s then s
  else if s = STATUS_OBJECT_NAME_COLLISION then -EEXIST
  else if s = STATUS_NO_MEMORY then -ENOMEM
  else if s = STATUS_INVALID_PARAMETER then -EINVAL
  else if s = STATUS_OBJECT_NAME_INVALID then -ENOENT
  else if s = STATUS_OBJECT_NAME_NOT_FOUND then -ENOENT
  else if s = STATUS_TIMEOUT then -EAGAIN
  else if s = STATUS_BUFFER_TOO_SMALL then -EOVERFLOW
  else if s = STATUS_DEVICE_REMOVED then -ENODEV
  else if s = STATUS_ACCESS_DENIED then -EACCES
  else if s = STATUS_NOT_SUPPORTED then -EPERM
  else if s = STATUS_ILLEGAL_INSTRUCTION then -EOPNOTSUPP
  else if s = STATUS_INVALID_HANDLE then -EBADF
  else if s = STATUS_GRAPHICS_ALLOCATION_BUSY then -EINPROGRESS
  else if s = STATUS_OBJECT_TYPE_MISMATCH then -EPROTOTYPE
  else if s = STATUS_NOT_IMPLEMENTED then -EPERM
  else -EINVAL

/-! ### Events, channels, global state, message builder -/

/-- External effects performed by the embedded code, recorded in order. -/
inductive Event where
  | heapAlloc (size : Nat)
  | vzallocEv (size : Nat)
  | sendSync
  | sendAsync
  | lockAcquire
  | lockRelease
  | vmMmap
  | vmUnmap
  deriving DecidableEq, Repr

/-- A logical VM-bus channel: the global channel or an adapter's own
channel (identified here by an adapter identifier). -/
inductive Channel where
  | globalCh
  | adapterCh (id : Nat)
  deriving DecidableEq, Repr

/-- The fields of `struct dxgglobal` read by this layer. -/
structure DxgGlobal where
  vmbus_ver : Nat
  async_msg_enabled : Bool
  mmiospace_base : Nat
  mmiospace_size : Nat
  deriving DecidableEq, Repr

/-- The channel assignment performed at the end of `init_message`:
`if (adapter && !dxgglobal->async_msg_enabled)` the adapter's channel,
otherwise the global channel. -/
def init_message_channel (adapter : Option Nat) (async : Bool) : Channel :=
  match adapter, async with
  | some a, false => Channel.adapterCh a
  | _, _ => Channel.globalCh

/-- The channel assignment performed at the end of `init_message_res`:
`if (dxgglobal->async_msg_enabled)` the global channel, else
`&adapter->channel`; with a null adapter the latter dereferences a null
pointer, modelled as `none`. -/
def init_message_res_channel (adapter : Option Nat) (async : Bool) :
    Option Channel :=
  match adapter, async with
  | _, true => some Channel.globalCh
  | some a, false => some (Channel.adapterCh a)
  | none, false => none

/-- Channel-selection rule as the spec words it: a message is carried by
the adapter's own channel exactly when an adapter context is present and
asynchronous mode is not enabled, and by the global channel in every
other case.  (Second definition for the refinement comparison; written
from the spec, not from the source.) -/
def spec_channel_rule (adapter : Option Nat) (async : Bool) : Channel :=
  if adapter.isSome && !async then Channel.adapterCh (adapter.getD 0)
  else Channel.globalCh

/-- The message descriptor produced by `init_message`. -/
structure VmbusMsg where
  size : Nat
  channel : Channel
  hdrOnStack : Bool
  deriving DecidableEq, Repr

/-- `init_message`: compute the total size (adding the extended header if
the negotiated version requires it), obtain storage (the on-stack buffer
up to `VMBUSMESSAGEONSTACK`, else a heap allocation whose success is the
oracle `allocOk`), and select the channel.  Returns the message and the
events performed. -/
def init_message (g : DxgGlobal) (adapter : Option Nat) (size : Nat)
    (allocOk : Bool) : Except Int VmbusMsg × List Event :=
  let size' := if DXGK_VMBUS_INTERFACE_VERSION ≤ g.vmbus_ver then
                 size + sizeof_dxgvmb_ext_header
               else size
  if size' ≤ VMBUSMESSAGEONSTACK then
    (Except.ok { size := size',
                 channel := init_message_channel adapter g.async_msg_enabled,
                 hdrOnStack := true }, [])
  else if allocOk then
    (Except.ok { size := size',
                 channel := init_message_channel adapter g.async_msg_enabled,
                 hdrOnStack := false }, [Event.heapAlloc size'])
  else
    (Except.error (-ENOMEM), [Event.heapAlloc size'])

/-! ### IO-space window validation and mapping -/

/-- `check_iospace_address`: reject the host-supplied range unless it lies
inside the negotiated IO-space window.  The three tests are evaluated in
the short-circuit order of the source. -/
def check_iospace_address (g : DxgGlobal) (address : Nat) (size : Nat) :
    Int :=
  if address < g.mmiospace_base then -EINVAL
  else if size > g.mmiospace_size then -EINVAL
  else if address ≥ g.mmiospace_base + g.mmiospace_size - size then -EINVAL
  else 0

/-- Oracle outcomes for the external steps of `dxg_map_iospace`:
`vm_mmap` (some guest VA on success), `find_vma` and
`io_remap_pfn_range`. -/
structure MapOracle where
  mmapVa : Option Nat
  vmaFound : Bool
  remapOk : Bool
  deriving DecidableEq, Repr

/-- `dxg_map_iospace`: validate the window, create an anonymous guest
mapping, remap it onto the host physical frames; on a failure after the
mapping was created, unmap it and return a null result.  On success the
returned address is the guest VA offset by the sub-page remainder of the
IO-space address. -/
def dxg_map_iospace (g : DxgGlobal) (iospace_address : Nat) (size : Nat)
    (o : MapOracle) : Option Nat × List Event :=
  if check_iospace_address g iospace_address size < 0 then
    (none, [])
  else
    match o.mmapVa with
    | none => (none, [Event.vmMmap])
    | some va =>
      if o.vmaFound && o.remapOk then
        (some (va + iospace_address % PAGE_SIZE), [Event.vmMmap])
      else
        (none, [Event.vmMmap, Event.vmUnmap])

/-! ### Encoder: dxgvmb_send_signal_sync_object -/

/-- One section of the variable payload of a signal-sync-object command,
in the order the encoder writes it after the fixed header. -/
inductive SigChunk where
  | objectsChunk (count : Nat) (data : List Nat)
  | injectedContext (h : Nat)
  | contextsChunk (count : Nat) (data : List Nat)
  | fencesChunk (count : Nat) (data : List Nat)
  deriving DecidableEq, Repr

/-- Size in bytes of a payload section. -/
def sigChunkSize : SigChunk → Nat
  | SigChunk.objectsChunk c _ => c * sizeof_d3dkmthandle
  | SigChunk.injectedContext _ => sizeof_d3dkmthandle
  | SigChunk.contextsChunk c _ => c * sizeof_d3dkmthandle
  | SigChunk.fencesChunk c _ => c * sizeof_u64

/-- Total size in bytes of the variable payload written after the fixed
command header. -/
def sig_payload_size (p : List SigChunk) : Nat := (p.map sigChunkSize).sum

/-- The signal-sync-object command as built in the message buffer: the
counts reported to the host in the header and the payload sections in
write order. -/
structure SignalCommand where
  object_count : Nat
  context_count : Nat
  payload : List SigChunk
  async_msg : Bool
  deriving DecidableEq, Repr

/-- Oracle outcomes for the external steps of
`dxgvmb_send_signal_sync_object`. -/
structure SignalOracle where
  allocOk : Bool
  copyObjectsOk : Bool
  copyContextsOk : Bool
  copyFencesOk : Bool
  sendRet : Int
  deriving DecidableEq, Repr

/-- Result of a signal-sync-object encoder run: the return value, the
event trace, and the command that was sent (`none` when no message was
sent). -/
structure SignalResult where
  ret : Int
  events : List Event
  command : Option SignalCommand
  deriving DecidableEq, Repr

/-- `dxgvmb_send_signal_sync_object`: compute the payload size from
`object_count`, `context_count` and `fence_count` (plus one extra handle
when an explicit `context` is given), build the message and send it
(asynchronously when async mode is negotiated).  There is no validation
of the computed size against `DXG_MAX_VM_BUS_PACKET_SIZE`. -/
def dxgvmb_send_signal_sync_object (g : DxgGlobal) (adapter : Option Nat)
    (context : Nat) (object_count : Nat) (objects : List Nat)
    (context_count : Nat) (contexts : List Nat)
    (fence_count : Nat) (fences : Option (List Nat))
    (user_address : Bool) (o : SignalOracle) : SignalResult :=
  let object_size := object_count * sizeof_d3dkmthandle
  let context_size := context_count * sizeof_d3dkmthandle
  let fence_size := match fences with
                    | some _ => fence_count * sizeof_u64
                    | none => 0
  let cmd_size := sizeof_dxgkvmb_command_signalsyncobject +
                  object_size + context_size + fence_size
  let cmd_size := if context ≠ 0 then cmd_size + sizeof_d3dkmthandle
                  else cmd_size
  match init_message g adapter cmd_size o.allocOk with
  | (Except.error e, evs) => { ret := e, events := evs, command := none }
  | (Except.ok _, evs) =>
    if user_address && !o.copyObjectsOk then
      { ret := -EINVAL, events := evs, command := none }
    else
      let payload := [SigChunk.objectsChunk object_count objects]
      let hdr_context_count :=
        if context ≠ 0 then context_count + 1 else context_count
      let payload :=
        if context ≠ 0 then payload ++ [SigChunk.injectedContext context]
        else payload
      if context_size ≠ 0 && (user_address && !o.copyContextsOk) then
        { ret := -EINVAL, events := evs, command := none }
      else
        let payload :=
          if context_size ≠ 0 then
            payload ++ [SigChunk.contextsChunk context_count contexts]
          else payload
        if fence_size ≠ 0 && (user_address && !o.copyFencesOk) then
          { ret := -EINVAL, events := evs, command := none }
        else
          let payload :=
            if fence_size ≠ 0 then
              payload ++ [SigChunk.fencesChunk fence_count (fences.getD [])]
            else payload
          let cmd : SignalCommand :=
            { object_count := object_count,
              context_count := hdr_context_count,
              payload := payload,
              async_msg := g.async_msg_enabled }
          if g.async_msg_enabled then
            { ret := o.sendRet, events := evs ++ [Event.sendAsync],
              command := some cmd }
          else
            { ret := o.sendRet, events := evs ++ [Event.sendSync],
              command := some cmd }

/-! ### Encoder: dxgvmb_send_wait_sync_object_gpu -/

/-- The wait-for-sync-object-from-GPU command contents: fence values are
written first (into the trailing array of the fixed struct), the object
handles follow. -/
structure WaitGpuCommand where
  context : Nat
  object_count : Nat
  legacy_fence_object : Bool
  fence_values : List Nat
  objects : List Nat
  deriving DecidableEq, Repr

/-- Result of a wait-from-GPU encoder run. -/
structure WaitGpuResult where
  ret : Int
  events : List Event
  command : Option WaitGpuCommand
  deriving DecidableEq, Repr

/-- `dxgvmb_send_wait_sync_object_gpu`: reject a zero or too large
`object_count` with `-EINVAL` before building anything; otherwise build
the message and send it (asynchronously when async mode is negotiated). -/
def dxgvmb_send_wait_sync_object_gpu (g : DxgGlobal) (adapter : Option Nat)
    (context : Nat) (object_count : Nat) (objects : List Nat)
    (fences : List Nat) (legacy_fence : Bool)
    (allocOk : Bool) (sendRet : Int) : WaitGpuResult :=
  let fence_size := object_count * sizeof_u64
  let object_size := object_count * sizeof_d3dkmthandle
  let cmd_size := object_size + fence_size - sizeof_u64 +
                  sizeof_dxgkvmb_command_waitforsyncobjectfromgpu
  if object_count = 0 ∨ object_count > D3DDDI_MAX_OBJECT_WAITED_ON then
    { ret := -EINVAL, events := [], command := none }
  else
    match init_message g adapter cmd_size allocOk with
    | (Except.error e, evs) => { ret := e, events := evs, command := none }
    | (Except.ok _, evs) =>
      let cmd : WaitGpuCommand :=
        { context := context, object_count := object_count,
          legacy_fence_object := legacy_fence,
          fence_values := fences, objects := objects }
      if g.async_msg_enabled then
        { ret := sendRet, events := evs ++ [Event.sendAsync],
          command := some cmd }
      else
        { ret := sendRet, events := evs ++ [Event.sendSync],
          command := some cmd }

/-! ### Encoder: dxgvmb_send_set_iospace_region -/

/-- Result of an encoder run that only returns a status. -/
structure EncRun where
  ret : Int
  events : List Event
  deriving DecidableEq, Repr

/-- `dxgvmb_send_set_iospace_region`: a global-channel encoder; it
acquires the global channel lock around its synchronous send and releases
it afterwards.  `lockRet` is the result of
`dxgglobal_acquire_channel_lock`. -/
def dxgvmb_send_set_iospace_region (g : DxgGlobal)
    (allocOk : Bool) (lockRet : Int) (sendRet : Int) : EncRun :=
  match init_message g none sizeof_dxgkvmb_command_setiospaceregion
      allocOk with
  | (Except.error e, evs) => { ret := e, events := evs }
  | (Except.ok _, evs) =>
    if lockRet < 0 then
      { ret := lockRet, events := evs }
    else
      { ret := sendRet,
        events := evs ++ [Event.lockAcquire, Event.sendSync,
                          Event.lockRelease] }

/-- `true` when every transport send in the trace happens while the
channel lock is held (the Boolean argument is the lock state at the head
of the trace). -/
def sends_locked : Bool → List Event → Bool
  | _, [] => true
  | _, Event.lockAcquire :: r => sends_locked true r
  | _, Event.lockRelease :: r => sends_locked false r
  | l, Event.sendSync :: r => l && sends_locked l r
  | l, Event.sendAsync :: r => l && sends_locked l r
  | l, _ :: r => sends_locked l r

/-! ### Run-length encoding of system-memory page lists -/

/-- `calculate_max_rle_data_size`: worst-case RLE budget from the
host-returned allocation sizes — one `u64` record per page, pages counted
by rounding each allocation size up to whole pages. -/
def calculate_max_rle_data_size (allocation_sizes : List Nat) : Nat :=
  (allocation_sizes.map (fun s => (s + PAGE_SIZE - 1) / PAGE_SIZE)).sum *
    sizeof_u64

/-- The per-allocation RLE loop of `copy_sysmem_pages_rle_data` over the
pinned page list (`pages` holds the physical address of each page, in
order).  The loop runs one extra iteration (`k = npages`) to flush the
final record; the page pointer is not advanced on the two final
iterations, so the current page at step `k` is `pages[min k (npages-1)]`.
A record `base_page | (pages_seen - 1)` is flushed when the physical run
breaks, when `pages_seen` reaches `PAGE_SIZE`, or at the final iteration;
before each flush the running record total `used` is checked against
`limit` and `-EOVERFLOW` is returned when no budget is left.  Returns the
records emitted for this allocation and the updated running total. -/
def rle_go (pages : List Nat) (npages limit : Nat) :
    Nat → Nat → Nat → Nat → Nat → List Nat → Except Int (List Nat × Nat)
  | 0, _, _, _, used, records => Except.ok (records, used)
  | fuel + 1, k, base_page, pages_seen, used, records =>
    if npages < k then
      Except.ok (records, used)
    else
      let curr_page := pages.getD (min k (npages - 1)) 0
      let base_page := if base_page = 0 then curr_page else base_page
      if (k ≠ 0 ∧ curr_page ≠ base_page + pages_seen * PAGE_SIZE) ∨
          pages_seen = PAGE_SIZE ∨ k = npages then
        if used ≥ limit then
          Except.error (-EOVERFLOW)
        else
          rle_go pages npages limit fuel (k + 1) curr_page 1 (used + 1)
            (records ++ [base_page ||| (pages_seen - 1)])
      else
        rle_go pages npages limit fuel (k + 1) base_page (pages_seen + 1)
          used records

/-- RLE encoding of one system-memory allocation's page list, starting
from a running record total `used`.  The loop performs exactly
`npages + 1` iterations (`pages_processed = 0 .. npages`), which the
structural recursion counts down. -/
def rle_encode_alloc (pages : List Nat) (limit used : Nat) :
    Except Int (List Nat × Nat) :=
  rle_go pages pages.length limit (pages.length + 1) 0 0 0 used []

/-- `copy_sysmem_pages_rle_data`: process each allocation in order;
`none` stands for an allocation skipped by the
`priv_drv_data_size && curr_alloc_size > 0` guard (no records, RLE size
0); `some pages` is a processed allocation with its pinned page list.
The running record total is threaded through all allocations. -/
def copy_sysmem_pages_rle_data (allocs : List (Option (List Nat)))
    (limit : Nat) (used : Nat) : Except Int (List (List Nat)) :=
  match allocs with
  | [] => Except.ok []
  | none :: rest =>
    (copy_sysmem_pages_rle_data rest limit used).map
      (fun rs => [] :: rs)
  | some pages :: rest =>
    match rle_encode_alloc pages limit used with
    | Except.error e => Except.error e
    | Except.ok (records, used') =>
      (copy_sysmem_pages_rle_data rest limit used').map
        (fun rs => records :: rs)

/-! ### Encoder: dxgvmb_send_create_allocation -/

/-- The fields of one `struct d3dddi_allocationinfo` read by the
validation phase of allocation creation. -/
structure AllocInfoM where
  priv_drv_data_size : Nat
  sysmem : Bool
  deriving DecidableEq, Repr

/-- The caller-supplied sizes of `struct d3dkmt_createallocation` read by
the validation phase. -/
structure CreateAllocArgs where
  private_runtime_data_size : Nat
  priv_drv_data_size : Nat
  deriving DecidableEq, Repr

/-- The per-allocation private-data size loop of
`dxgvmb_send_create_allocation`: reject any single size that reaches
`DXG_MAX_VM_BUS_PACKET_SIZE`, and reject as soon as the running sum
reaches it. -/
def compute_priv_size (infos : List AllocInfoM) (acc : Nat) :
    Except Int Nat :=
  match infos with
  | [] => Except.ok acc
  | a :: rest =>
    if a.priv_drv_data_size ≥ DXG_MAX_VM_BUS_PACKET_SIZE then
      Except.error (-EOVERFLOW)
    else
      let acc := acc + a.priv_drv_data_size
      if acc ≥ DXG_MAX_VM_BUS_PACKET_SIZE then
        Except.error (-EOVERFLOW)
      else compute_priv_size rest acc

/-- The sysmem tagging check of `dxgvmb_send_create_allocation`:
`sysmem` is read from the first element, then the loop over the elements
after the first returns `-EINVAL` at the first one whose `sysmem` tag is
unset (the loop runs whether or not the first element is sysmem). -/
def sysmem_batch_check (infos : List AllocInfoM) : Except Int Bool :=
  match infos with
  | [] => Except.ok false
  | a :: rest =>
    if rest.all (fun x => x.sysmem) then Except.ok a.sysmem
    else Except.error (-EINVAL)

/-- 32-bit wrap of the `u32` subtraction `a - b`. -/
def u32_sub (a b : Nat) : Nat :=
  (a + 4294967296 - b % 4294967296) % 4294967296

/-- Modelled from the spec: size of the fixed part of
`struct dxgkvmb_command_createallocation_return` (header not under
src/). -/
def sizeof_dxgkvmb_command_createallocation_return : Nat := 64

/-- Modelled from the spec: size of
`struct dxgkvmb_command_allocinfo_return` (header not under src/). -/
def sizeof_dxgkvmb_command_allocinfo_return : Nat := 48

/-- Modelled from the spec: size of the fixed part of
`struct dxgkvmb_command_getallocationsize_return` (header not under
src/). -/
def sizeof_dxgkvmb_command_getallocationsize_return : Nat := 24

/-- Oracle outcomes for the external steps of
`dxgvmb_send_create_allocation`. -/
structure CreateAllocOracle where
  resultAllocOk : Bool
  sizeResultAllocOk : Bool
  getSizeRet : Int
  allocationSizes : List Nat
  msgAllocOk : Bool
  copyPrivOk : Bool
  rleRet : Int
  sendRet : Int
  hostStatus : Int
  localRet : Int
  deriving DecidableEq, Repr

/-- `dxgvmb_send_create_allocation`, up to and including the main host
round trip and the local-allocation bookkeeping outcome.  The validation
phase (top-level sizes, per-allocation private-data sizes, sysmem
tagging) is embedded exactly; each later external step (result-buffer
allocations, the nested get-allocation-size round trip for sysmem
batches, the message build, the user copies, the RLE encoding — embedded
separately as `copy_sysmem_pages_rle_data` — the main send and the
handle registration) is driven by its oracle outcome. -/
def dxgvmb_send_create_allocation (g : DxgGlobal) (adapter : Option Nat)
    (args : CreateAllocArgs) (alloc_info : List AllocInfoM)
    (o : CreateAllocOracle) : EncRun :=
  if args.private_runtime_data_size ≥ DXG_MAX_VM_BUS_PACKET_SIZE ∨
      args.priv_drv_data_size ≥ DXG_MAX_VM_BUS_PACKET_SIZE then
    { ret := -EOVERFLOW, events := [] }
  else
    match compute_priv_size alloc_info 0 with
    | Except.error e => { ret := e, events := [] }
    | Except.ok priv_size =>
      match sysmem_batch_check alloc_info with
      | Except.error e => { ret := e, events := [] }
      | Except.ok sysmem =>
        let alloc_count := alloc_info.length
        let result_size := sizeof_dxgkvmb_command_createallocation_return +
          u32_sub alloc_count 1 * sizeof_dxgkvmb_command_allocinfo_return +
          priv_size
        let evs := [Event.vzallocEv result_size]
        if !o.resultAllocOk then
          { ret := -ENOMEM, events := evs }
        else
          let priv_size := priv_size + args.priv_drv_data_size
          let size_result_size :=
            sizeof_dxgkvmb_command_getallocationsize_return +
            alloc_count * sizeof_u64
          let evs := evs ++ [Event.vzallocEv size_result_size]
          if !o.sizeResultAllocOk then
            { ret := -ENOMEM, events := evs }
          else
            let evs := if sysmem then evs ++ [Event.sendSync] else evs
            if sysmem ∧ o.getSizeRet < 0 then
              { ret := o.getSizeRet, events := evs }
            else
              let cmd_size := sizeof_dxgkvmb_command_createallocation +
                alloc_count *
                  sizeof_dxgkvmb_command_createallocation_allocinfo +
                args.private_runtime_data_size + priv_size
              let sysmem_pages_rle_limit :=
                if sysmem then calculate_max_rle_data_size o.allocationSizes
                else 0
              let cmd_size := cmd_size + sysmem_pages_rle_limit
              if cmd_size > DXG_MAX_VM_BUS_PACKET_SIZE then
                { ret := -EOVERFLOW, events := evs }
              else
                match init_message g adapter cmd_size o.msgAllocOk with
                | (Except.error e, evs') =>
                  { ret := e, events := evs ++ evs' }
                | (Except.ok _, evs') =>
                  let evs := evs ++ evs'
                  if !o.copyPrivOk then
                    { ret := -EINVAL, events := evs }
                  else if sysmem ∧ o.rleRet < 0 then
                    { ret := o.rleRet, events := evs }
                  else
                    let evs := evs ++ [Event.sendSync]
                    if o.sendRet < 0 then
                      { ret := o.sendRet, events := evs }
                    else
                      let status := ntstatus2int o.hostStatus
                      if status < 0 then
                        { ret := status, events := evs }
                      else
                        { ret := o.localRet, events := evs }

/-! ### Encoder: dxgvmb_send_create_hwqueue -/

/-- Oracle outcomes for the external steps of
`dxgvmb_send_create_hwqueue`. -/
structure HwQueueOracle where
  msgAllocOk : Bool
  copyPrivInOk : Bool
  sendRet : Int
  hostStatus : Int
  hostQueueHandle : Nat
  hostFenceHandle : Nat
  assignQueueOk : Bool
  assignFenceOk : Bool
  mapResult : Option Nat
  copyOutQueueOk : Bool
  copyOutFenceOk : Bool
  copyOutCpuVaOk : Bool
  copyOutGpuVaOk : Bool
  copyOutPrivOk : Bool
  deriving DecidableEq, Repr

/-- State of a create-hwqueue run when it reaches the `cleanup:` label:
return value, whether the two handle-table registrations are present,
the value of `hwqueue->handle` (set only after both registrations
succeed), the progress-fence mapping, the queue handle value found in the
command/response buffer, and the event trace. -/
structure HwQueueState where
  ret : Int
  queueEntry : Bool
  fenceEntry : Bool
  hwqueueHandle : Nat
  mappedAddress : Option Nat
  cmdQueueV : Nat
  events : List Event
  deriving DecidableEq, Repr

/-- Final result of `dxgvmb_send_create_hwqueue` after the cleanup
path ran. -/
structure HwQueueFinal where
  ret : Int
  queueEntry : Bool
  fenceEntry : Bool
  hwqueueHandle : Nat
  mappedAddress : Option Nat
  destroySent : Bool
  events : List Event
  deriving DecidableEq, Repr

/-- The forward path of `dxgvmb_send_create_hwqueue` up to the
`cleanup:` label: size check, message build, private-data copy-in,
synchronous send (the response is written into the command buffer),
status decode, the two handle-table registrations, setting
`hwqueue->handle`, the progress-fence mapping, and the copies back to the
caller. -/
def create_hwqueue_forward (g : DxgGlobal) (adapter : Option Nat)
    (priv_drv_data_size : Nat) (o : HwQueueOracle) : HwQueueState :=
  if priv_drv_data_size > DXG_MAX_VM_BUS_PACKET_SIZE then
    { ret := -EINVAL, queueEntry := false, fenceEntry := false,
      hwqueueHandle := 0, mappedAddress := none, cmdQueueV := 0,
      events := [] }
  else
    let cmd_size := sizeof_dxgkvmb_command_createhwqueue +
      (if priv_drv_data_size ≠ 0 then priv_drv_data_size - 1 else 0)
    match init_message g adapter cmd_size o.msgAllocOk with
    | (Except.error e, evs) =>
      { ret := e, queueEntry := false, fenceEntry := false,
        hwqueueHandle := 0, mappedAddress := none, cmdQueueV := 0,
        events := evs }
    | (Except.ok _, evs) =>
      if priv_drv_data_size ≠ 0 ∧ ¬o.copyPrivInOk then
        { ret := -EINVAL, queueEntry := false, fenceEntry := false,
          hwqueueHandle := 0, mappedAddress := none, cmdQueueV := 0,
          events := evs }
      else
        let evs := evs ++ [Event.sendSync]
        if o.sendRet < 0 then
          { ret := o.sendRet, queueEntry := false, fenceEntry := false,
            hwqueueHandle := 0, mappedAddress := none, cmdQueueV := 0,
            events := evs }
        else
          let cmdQueueV := o.hostQueueHandle
          let status := ntstatus2int o.hostStatus
          if status < 0 then
            { ret := status, queueEntry := false, fenceEntry := false,
              hwqueueHandle := 0, mappedAddress := none,
              cmdQueueV := cmdQueueV, events := evs }
          else if ¬o.assignQueueOk then
            { ret := -ENOMEM, queueEntry := false, fenceEntry := false,
              hwqueueHandle := 0, mappedAddress := none,
              cmdQueueV := cmdQueueV, events := evs }
          else if ¬o.assignFenceOk then
            { ret := -ENOMEM, queueEntry := true, fenceEntry := false,
              hwqueueHandle := 0, mappedAddress := none,
              cmdQueueV := cmdQueueV, events := evs }
          else
            let evs := evs ++ [Event.vmMmap]
            match o.mapResult with
            | none =>
              { ret := -ENOMEM, queueEntry := true, fenceEntry := true,
                hwqueueHandle := cmdQueueV, mappedAddress := none,
                cmdQueueV := cmdQueueV, events := evs }
            | some va =>
              if ¬o.copyOutQueueOk ∨ ¬o.copyOutFenceOk ∨
                  ¬o.copyOutCpuVaOk ∨ ¬o.copyOutGpuVaOk then
                { ret := -EINVAL, queueEntry := true, fenceEntry := true,
                  hwqueueHandle := cmdQueueV, mappedAddress := some va,
                  cmdQueueV := cmdQueueV, events := evs }
              else if priv_drv_data_size ≠ 0 ∧ ¬o.copyOutPrivOk then
                { ret := -EINVAL, queueEntry := true, fenceEntry := true,
                  hwqueueHandle := cmdQueueV, mappedAddress := some va,
                  cmdQueueV := cmdQueueV, events := evs }
              else
                { ret := 0, queueEntry := true, fenceEntry := true,
                  hwqueueHandle := cmdQueueV, mappedAddress := some va,
                  cmdQueueV := cmdQueueV, events := evs }

/-- The `cleanup:` path of `dxgvmb_send_create_hwqueue`: on a negative
return, free the queue handle-table entry when `hwqueue->handle` was set
(and zero the handle), and issue the compensating destroy-hwqueue message
when the command buffer holds a non-zero queue handle.  Nothing else is
unwound. -/
def create_hwqueue_cleanup (s : HwQueueState) : HwQueueFinal :=
  if s.ret < 0 then
    let queueEntry := if s.hwqueueHandle ≠ 0 then false else s.queueEntry
    let handle := if s.hwqueueHandle ≠ 0 then 0 else s.hwqueueHandle
    if s.cmdQueueV ≠ 0 then
      { ret := s.ret, queueEntry := queueEntry, fenceEntry := s.fenceEntry,
        hwqueueHandle := handle, mappedAddress := s.mappedAddress,
        destroySent := true, events := s.events ++ [Event.sendSync] }
    else
      { ret := s.ret, queueEntry := queueEntry, fenceEntry := s.fenceEntry,
        hwqueueHandle := handle, mappedAddress := s.mappedAddress,
        destroySent := false, events := s.events }
  else
    { ret := s.ret, queueEntry := s.queueEntry, fenceEntry := s.fenceEntry,
      hwqueueHandle := s.hwqueueHandle, mappedAddress := s.mappedAddress,
      destroySent := false, events := s.events }

/-- `dxgvmb_send_create_hwqueue`: the forward path followed by the
cleanup path. -/
def dxgvmb_send_create_hwqueue (g : DxgGlobal) (adapter : Option Nat)
    (priv_drv_data_size : Nat) (o : HwQueueOracle) : HwQueueFinal :=
  create_hwqueue_cleanup (create_hwqueue_forward g adapter
    priv_drv_data_size o)

/-! ### Theorems -/

/-- C2: channel selection is a pure function of (adapter context present,
async flag): `init_message` assigns the adapter's own channel exactly when
an adapter context is present and `async_msg_enabled` is false, and the
global channel in every other case; `init_message_res` (which is only
invoked with an adapter context) does the same whenever an adapter context
is present; and every message built by `init_message` carries the channel
this rule selects. -/
theorem channel_selection_pure_rule :
    (∀ (adapter : Option Nat) (async : Bool),
      init_message_channel adapter async = spec_channel_rule adapter async) ∧
    (∀ (adapter : Option Nat) (async : Bool), adapter.isSome = true →
      init_message_res_channel adapter async =
        some (spec_channel_rule adapter async)) ∧
    (∀ (g : DxgGlobal) (adapter : Option Nat) (size : Nat) (allocOk : Bool)
        (msg : VmbusMsg) (evs : List Event),
      init_message g adapter size allocOk = (Except.ok msg, evs) →
      msg.channel = spec_channel_rule adapter g.async_msg_enabled) := by
  refine ⟨?_, ?_, ?_⟩
  · intro adapter async
    cases adapter <;> cases async <;> rfl
  · intro adapter async h
    cases adapter with
    | none => simp at h
    | some a => cases async <;> rfl
  · intro g adapter size allocOk msg evs h
    simp only [init_message] at h
    split at h <;> split at h <;>
      first
      | (simp only [Prod.mk.injEq, Except.ok.injEq] at h
         rw [← h.1]
         cases adapter <;> cases g.async_msg_enabled <;> rfl)
      | (split at h <;>
          first
          | (simp only [Prod.mk.injEq, Except.ok.injEq] at h
             rw [← h.1]
             cases adapter <;> cases g.async_msg_enabled <;> rfl)
          | simp at h)

/-- Witness for C2 at concrete inputs. -/
theorem channel_selection_pure_rule_witness :
    init_message_channel (some 3) false = spec_channel_rule (some 3) false ∧
    init_message_res_channel (some 3) true =
      some (spec_channel_rule (some 3) true) := by
  exact ⟨channel_selection_pure_rule.1 (some 3) false,
         channel_selection_pure_rule.2.1 (some 3) true (by decide)⟩

/-- C3: `ntstatus2int` is total: a successful (non-negative) status is
passed through unchanged; each listed failure status maps to its
documented negative POSIX code; every unrecognized non-success status
maps to `-EINVAL`. -/
theorem ntstatus2int_total_mapping :
    (∀ s : Int, 0 ≤ s → ntstatus2int s = s) ∧
    (ntstatus2int STATUS_OBJECT_NAME_COLLISION = -EEXIST ∧
     ntstatus2int STATUS_NO_MEMORY = -ENOMEM ∧
     ntstatus2int STATUS_INVALID_PARAMETER = -EINVAL ∧
     ntstatus2int STATUS_OBJECT_NAME_INVALID = -ENOENT ∧
     ntstatus2int STATUS_OBJECT_NAME_NOT_FOUND = -ENOENT ∧
     ntstatus2int STATUS_TIMEOUT = -EAGAIN ∧
     ntstatus2int STATUS_BUFFER_TOO_SMALL = -EOVERFLOW ∧
     ntstatus2int STATUS_DEVICE_REMOVED = -ENODEV ∧
     ntstatus2int STATUS_ACCESS_DENIED = -EACCES ∧
     ntstatus2int STATUS_NOT_SUPPORTED = -EPERM ∧
     ntstatus2int STATUS_ILLEGAL_INSTRUCTION = -EOPNOTSUPP ∧
     ntstatus2int STATUS_INVALID_HANDLE = -EBADF ∧
     ntstatus2int STATUS_GRAPHICS_ALLOCATION_BUSY = -EINPROGRESS ∧
     ntstatus2int STATUS_OBJECT_TYPE_MISMATCH = -EPROTOTYPE ∧
     ntstatus2int STATUS_NOT_IMPLEMENTED = -EPERM) ∧
    (∀ s : Int, s < 0 → s ∉ listed_failure_statuses →
      ntstatus2int s = -EINVAL) := by
  refine ⟨?_, by decide, ?_⟩
  · intro s hs
    simp [ntstatus2int, nt_success, hs]
  · intro s hs hmem
    simp only [listed_failure_statuses, List.mem_cons,
      List.not_mem_nil, or_false, not_or] at hmem
    obtain ⟨h1, h2, h3, h4, h5, h6, h7, h8, h9, h10, h11, h12, h13, h14,
      h15⟩ := hmem
    have hns : ¬ (0 : Int) ≤ s := by omega
    simp [ntstatus2int, nt_success, hns, h1, h2, h3, h4, h5, h6, h7, h8,
      h9, h10, h11, h12, h13, h14, h15]

/-- Witness for C3: a positive (pending-style) status passes through, and
an unrecognized failure status maps to `-EINVAL`. -/
theorem ntstatus2int_total_mapping_witness :
    ntstatus2int 259 = 259 ∧ ntstatus2int (int32 0xC0000001) = -EINVAL := by
  exact ⟨ntstatus2int_total_mapping.1 259 (by decide),
         ntstatus2int_total_mapping.2.2 (int32 0xC0000001) (by decide)
           (by decide)⟩

/-- C7: a signal-sync-object call with `object_count = 2`,
`context_count = 0`, `fence_count = 2` (non-null fences) and a non-zero
explicit context handle builds a variable payload of exactly
`2*sizeof(d3dkmthandle) + 1*sizeof(d3dkmthandle) + 2*8` bytes after the
fixed header, with the injected context handle placed after the object
handles and ahead of any caller-supplied context array, and with
`context_count` reported to the host as 1. -/
theorem signal_sync_object_concrete_layout :
    (dxgvmb_send_signal_sync_object
        { vmbus_ver := 0, async_msg_enabled := false, mmiospace_base := 0,
          mmiospace_size := 0 }
        (some 1) 5 2 [10, 11] 0 [] 2 (some [7, 8]) false
        { allocOk := true, copyObjectsOk := true, copyContextsOk := true,
          copyFencesOk := true, sendRet := 0 }).command =
      some { object_count := 2, context_count := 1,
             payload := [SigChunk.objectsChunk 2 [10, 11],
                         SigChunk.injectedContext 5,
                         SigChunk.fencesChunk 2 [7, 8]],
             async_msg := false } ∧
    sig_payload_size [SigChunk.objectsChunk 2 [10, 11],
                      SigChunk.injectedContext 5,
                      SigChunk.fencesChunk 2 [7, 8]] =
      2 * sizeof_d3dkmthandle + 1 * sizeof_d3dkmthandle + 2 * 8 := by
  decide

/-- The IO-space window acceptance condition exactly as the spec words
it: `base ≤ address` and `address + size ≤ base + window size`.  (Written
from the spec for the refinement comparison.) -/
def spec_iospace_window_ok (base window address size : Nat) : Prop :=
  base ≤ address ∧ address + size ≤ base + window

instance (base window address size : Nat) :
    Decidable (spec_iospace_window_ok base window address size) :=
  inferInstanceAs (Decidable (_ ∧ _))

/-- C8 counterexample: at the upper window boundary
(`address + size = base + window size`) the spec's acceptance predicate
holds, but `dxg_map_iospace` rejects the range (its window check is
strict) and returns a null result before creating any mapping. -/
theorem map_iospace_boundary_counterexample :
    spec_iospace_window_ok 4096 4096 4096 4096 ∧
    dxg_map_iospace
      { vmbus_ver := 0, async_msg_enabled := false, mmiospace_base := 4096,
        mmiospace_size := 4096 }
      4096 4096 { mmapVa := some 65536, vmaFound := true, remapOk := true } =
      (none, []) := by
  decide

/-- C8 amended: `dxg_map_iospace` accepts a host-supplied address range
exactly when `base ≤ address`, `size ≤ window size` and
`address + size < base + window size` (strict at the upper boundary);
any range outside this window yields a null result with no mapping
created; and on a failure after the guest mapping was created it unmaps
the partial mapping and returns a null result; on success it returns the
guest address offset by the sub-page remainder. -/
theorem dxg_map_iospace_window_spec :
    (∀ (g : DxgGlobal) (addr size : Nat),
      check_iospace_address g addr size = 0 ↔
        (g.mmiospace_base ≤ addr ∧ size ≤ g.mmiospace_size ∧
         addr + size < g.mmiospace_base + g.mmiospace_size)) ∧
    (∀ (g : DxgGlobal) (addr size : Nat) (o : MapOracle),
      ¬ (g.mmiospace_base ≤ addr ∧ size ≤ g.mmiospace_size ∧
         addr + size < g.mmiospace_base + g.mmiospace_size) →
      dxg_map_iospace g addr size o = (none, [])) ∧
    (∀ (g : DxgGlobal) (addr size : Nat) (o : MapOracle) (va : Nat),
      check_iospace_address g addr size = 0 →
      o.mmapVa = some va → (o.vmaFound && o.remapOk) = false →
      dxg_map_iospace g addr size o =
        (none, [Event.vmMmap, Event.vmUnmap])) ∧
    (∀ (g : DxgGlobal) (addr size : Nat) (o : MapOracle) (va : Nat),
      check_iospace_address g addr size = 0 →
      o.mmapVa = some va → (o.vmaFound && o.remapOk) = true →
      dxg_map_iospace g addr size o =
        (some (va + addr % PAGE_SIZE), [Event.vmMmap])) := by
  have hcases : ∀ (g : DxgGlobal) (addr size : Nat),
      check_iospace_address g addr size = 0 ∨
      check_iospace_address g addr size = -EINVAL := by
    intro g addr size
    unfold check_iospace_address
    split_ifs <;> simp
  have hne : (-EINVAL : Int) ≠ 0 := by decide
  have hiff : ∀ (g : DxgGlobal) (addr size : Nat),
      check_iospace_address g addr size = 0 ↔
        (g.mmiospace_base ≤ addr ∧ size ≤ g.mmiospace_size ∧
         addr + size < g.mmiospace_base + g.mmiospace_size) := by
    intro g addr size
    unfold check_iospace_address
    split_ifs with h1 h2 h3
    · exact iff_of_false hne (by omega)
    · exact iff_of_false hne (by omega)
    · exact iff_of_false hne (by omega)
    · exact iff_of_true rfl (by omega)
  refine ⟨hiff, ?_, ?_, ?_⟩
  · intro g addr size o h
    have hc : check_iospace_address g addr size = -EINVAL := by
      rcases hcases g addr size with h0 | h0
      · exact absurd ((hiff g addr size).mp h0) h
      · exact h0
    unfold dxg_map_iospace
    rw [hc, if_pos (by decide : (-EINVAL : Int) < 0)]
  · intro g addr size o va hc hm hf
    unfold dxg_map_iospace
    rw [hc, hm]
    simp [hf]
  · intro g addr size o va hc hm ht
    unfold dxg_map_iospace
    rw [hc, hm]
    simp [ht]

/-- Witness for the C8 amended theorem at concrete inputs. -/
theorem dxg_map_iospace_window_spec_witness :
    dxg_map_iospace
      { vmbus_ver := 0, async_msg_enabled := false, mmiospace_base := 4096,
        mmiospace_size := 8192 }
      4096 4096 { mmapVa := some 65536, vmaFound := true, remapOk := false } =
      (none, [Event.vmMmap, Event.vmUnmap]) ∧
    dxg_map_iospace
      { vmbus_ver := 0, async_msg_enabled := false, mmiospace_base := 4096,
        mmiospace_size := 8192 }
      4100 4096 { mmapVa := some 65536, vmaFound := true, remapOk := true } =
      (some (65536 + 4), [Event.vmMmap]) := by
  exact ⟨dxg_map_iospace_window_spec.2.2.1 _ 4096 4096 _ 65536 (by decide)
           rfl (by decide),
         dxg_map_iospace_window_spec.2.2.2 _ 4100 4096 _ 65536 (by decide)
           rfl (by decide)⟩

/-- With a successful heap allocation, `init_message` always returns a
message. -/
theorem init_message_true_ok (g : DxgGlobal) (adapter : Option Nat)
    (size : Nat) :
    ∃ m evs, init_message g adapter size true = (Except.ok m, evs) := by
  simp only [init_message]
  split_ifs <;> exact ⟨_, _, rfl⟩

/-- The events of `init_message` are at most one heap allocation; in
particular it performs no transport call and touches no lock. -/
theorem init_message_events_shape (g : DxgGlobal) (adapter : Option Nat)
    (size : Nat) (allocOk : Bool) :
    (init_message g adapter size allocOk).2 = [] ∨
    ∃ s, (init_message g adapter size allocOk).2 = [Event.heapAlloc s] := by
  simp only [init_message]
  split_ifs <;> simp

/-- C10: `dxgvmb_send_wait_sync_object_gpu` rejects `object_count = 0` and
`object_count > D3DDDI_MAX_OBJECT_WAITED_ON` with `-EINVAL` before
building a message, allocating, or sending anything; for an in-range
count (and a successful allocation) the request is built and sent. -/
theorem wait_sync_object_gpu_count_validation :
    (∀ (g : DxgGlobal) (adapter : Option Nat) (context object_count : Nat)
        (objects fences : List Nat) (legacy allocOk : Bool) (sendRet : Int),
      object_count = 0 ∨ object_count > D3DDDI_MAX_OBJECT_WAITED_ON →
      dxgvmb_send_wait_sync_object_gpu g adapter context object_count
          objects fences legacy allocOk sendRet =
        { ret := -EINVAL, events := [], command := none }) ∧
    (∀ (g : DxgGlobal) (adapter : Option Nat) (context object_count : Nat)
        (objects fences : List Nat) (legacy : Bool) (sendRet : Int),
      object_count ≠ 0 → object_count ≤ D3DDDI_MAX_OBJECT_WAITED_ON →
      (dxgvmb_send_wait_sync_object_gpu g adapter context object_count
          objects fences legacy true sendRet).command.isSome = true ∧
      (dxgvmb_send_wait_sync_object_gpu g adapter context object_count
          objects fences legacy true sendRet).ret = sendRet ∧
      (Event.sendSync ∈ (dxgvmb_send_wait_sync_object_gpu g adapter context
          object_count objects fences legacy true sendRet).events ∨
       Event.sendAsync ∈ (dxgvmb_send_wait_sync_object_gpu g adapter context
          object_count objects fences legacy true sendRet).events)) := by
  constructor
  · intro g adapter context object_count objects fences legacy allocOk
      sendRet h
    simp only [dxgvmb_send_wait_sync_object_gpu]
    rw [if_pos h]
  · intro g adapter context object_count objects fences legacy sendRet h0 hle
    simp only [dxgvmb_send_wait_sync_object_gpu]
    rw [if_neg (by omega)]
    obtain ⟨m, evs, hok⟩ := init_message_true_ok g adapter
      (object_count * sizeof_d3dkmthandle + object_count * sizeof_u64 -
       sizeof_u64 + sizeof_dxgkvmb_command_waitforsyncobjectfromgpu)
    rw [hok]
    cases hasync : g.async_msg_enabled <;> simp

/-- C9 counterexample: `dxgvmb_send_signal_sync_object` performs a
transport send with no channel-lock acquire anywhere in its trace, so not
every encoder wraps its send in the channel-lock discipline. -/
theorem signal_sync_object_send_without_lock :
    Event.sendSync ∈ (dxgvmb_send_signal_sync_object
      { vmbus_ver := 0, async_msg_enabled := false, mmiospace_base := 0,
        mmiospace_size := 0 }
      (some 1) 0 1 [10] 0 [] 0 none false
      { allocOk := true, copyObjectsOk := true, copyContextsOk := true,
        copyFencesOk := true, sendRet := 0 }).events ∧
    Event.lockAcquire ∉ (dxgvmb_send_signal_sync_object
      { vmbus_ver := 0, async_msg_enabled := false, mmiospace_base := 0,
        mmiospace_size := 0 }
      (some 1) 0 1 [10] 0 [] 0 none false
      { allocOk := true, copyObjectsOk := true, copyContextsOk := true,
        copyFencesOk := true, sendRet := 0 }).events := by
  decide

/-- C9 amended: the global bootstrap encoders such as
`dxgvmb_send_set_iospace_region` wrap their transport send in the global
channel-lock acquire/release (every send in their trace happens with the
lock held), but adapter-scoped encoders such as
`dxgvmb_send_signal_sync_object` issue their sends without ever touching
the channel lock. -/
theorem channel_lock_discipline_split :
    (∀ (g : DxgGlobal) (allocOk : Bool) (lockRet sendRet : Int),
      sends_locked false
        (dxgvmb_send_set_iospace_region g allocOk lockRet sendRet).events =
        true) ∧
    (∀ (g : DxgGlobal) (adapter : Option Nat) (context object_count : Nat)
        (objects : List Nat) (context_count : Nat) (contexts : List Nat)
        (fence_count : Nat) (fences : Option (List Nat)) (ua : Bool)
        (o : SignalOracle),
      Event.lockAcquire ∉ (dxgvmb_send_signal_sync_object g adapter context
        object_count objects context_count contexts fence_count fences ua
        o).events ∧
      Event.lockRelease ∉ (dxgvmb_send_signal_sync_object g adapter context
        object_count objects context_count contexts fence_count fences ua
        o).events) := by
  constructor
  · intro g allocOk lockRet sendRet
    simp only [dxgvmb_send_set_iospace_region]
    split
    case _ e evs heq =>
      rcases init_message_events_shape g none
          sizeof_dxgkvmb_command_setiospaceregion allocOk with hsh | ⟨s, hsh⟩ <;>
        rw [heq] at hsh <;> simp only at hsh <;> rw [hsh] <;> rfl
    case _ m evs heq =>
      rcases init_message_events_shape g none
          sizeof_dxgkvmb_command_setiospaceregion allocOk with hsh | ⟨s, hsh⟩ <;>
        rw [heq] at hsh <;> simp only at hsh <;> rw [hsh] <;>
        split_ifs <;> rfl
  · intro g adapter context object_count objects context_count contexts
      fence_count fences ua o
    simp only [dxgvmb_send_signal_sync_object]
    split
    case _ e evs heq =>
      have hsh' : evs = [] ∨ ∃ s, evs = [Event.heapAlloc s] := by
        rcases init_message_events_shape g adapter _ o.allocOk with hsh | ⟨s, hsh⟩ <;>
          rw [heq] at hsh <;> dsimp only at hsh
        · exact Or.inl hsh
        · exact Or.inr ⟨s, hsh⟩
      dsimp only
      rcases hsh' with h | ⟨s, h⟩ <;> subst h <;> simp
    case _ m evs heq =>
      have hsh' : evs = [] ∨ ∃ s, evs = [Event.heapAlloc s] := by
        rcases init_message_events_shape g adapter _ o.allocOk with hsh | ⟨s, hsh⟩ <;>
          rw [heq] at hsh <;> dsimp only at hsh
        · exact Or.inl hsh
        · exact Or.inr ⟨s, hsh⟩
      split_ifs <;> dsimp only <;>
        rcases hsh' with h | ⟨s, h⟩ <;> subst h <;> simp

/-- Witness for the C9 amended theorem at concrete inputs. -/
theorem channel_lock_discipline_split_witness :
    sends_locked false
      (dxgvmb_send_set_iospace_region
        { vmbus_ver := 0, async_msg_enabled := false, mmiospace_base := 0,
          mmiospace_size := 0 } true 0 0).events = true ∧
    Event.lockAcquire ∉ (dxgvmb_send_signal_sync_object
      { vmbus_ver := 0, async_msg_enabled := true, mmiospace_base := 0,
        mmiospace_size := 0 }
      (some 2) 0 1 [3] 0 [] 0 none false
      { allocOk := true, copyObjectsOk := true, copyContextsOk := true,
        copyFencesOk := true, sendRet := 0 }).events := by
  exact ⟨channel_lock_discipline_split.1 _ true 0 0,
         (channel_lock_discipline_split.2 _ (some 2) 0 1 [3] 0 [] 0 none
           false _).1⟩

/-- C1 counterexample: a signal-sync-object call whose computed payload
size exceeds `DXG_MAX_VM_BUS_PACKET_SIZE` is not rejected with an
overflow error: the encoder heap-allocates the oversized message and
performs the transport call anyway. -/
theorem signal_sync_object_oversized_sent :
    sizeof_dxgkvmb_command_signalsyncobject + 40000 * sizeof_d3dkmthandle >
      DXG_MAX_VM_BUS_PACKET_SIZE ∧
    dxgvmb_send_signal_sync_object
      { vmbus_ver := 0, async_msg_enabled := false, mmiospace_base := 0,
        mmiospace_size := 0 }
      (some 1) 0 40000 [] 0 [] 0 none false
      { allocOk := true, copyObjectsOk := true, copyContextsOk := true,
        copyFencesOk := true, sendRet := 0 } =
      { ret := 0,
        events := [Event.heapAlloc 160064, Event.sendSync],
        command := some { object_count := 40000, context_count := 0,
                          payload := [SigChunk.objectsChunk 40000 []],
                          async_msg := false } } := by
  decide

/-- C1 amended: `dxgvmb_send_create_allocation` validates its
caller-supplied sizes (the two top-level sizes, each per-allocation
private-data size, and the running sum) and returns `-EOVERFLOW` before
any heap allocation and with zero transport calls when one of them
reaches `DXG_MAX_VM_BUS_PACKET_SIZE`; `dxgvmb_send_signal_sync_object`
performs no packet-size validation: whenever its message build succeeds
it sends the message, whatever the computed payload size. -/
theorem create_allocation_size_validation :
    (∀ (g : DxgGlobal) (adapter : Option Nat) (args : CreateAllocArgs)
        (info : List AllocInfoM) (o : CreateAllocOracle),
      args.private_runtime_data_size ≥ DXG_MAX_VM_BUS_PACKET_SIZE ∨
      args.priv_drv_data_size ≥ DXG_MAX_VM_BUS_PACKET_SIZE →
      dxgvmb_send_create_allocation g adapter args info o =
        { ret := -EOVERFLOW, events := [] }) ∧
    (∀ (infos : List AllocInfoM) (acc : Nat) (e : Int),
      compute_priv_size infos acc = Except.error e → e = -EOVERFLOW) ∧
    (∀ (g : DxgGlobal) (adapter : Option Nat) (args : CreateAllocArgs)
        (info : List AllocInfoM) (o : CreateAllocOracle) (e : Int),
      args.private_runtime_data_size < DXG_MAX_VM_BUS_PACKET_SIZE →
      args.priv_drv_data_size < DXG_MAX_VM_BUS_PACKET_SIZE →
      compute_priv_size info 0 = Except.error e →
      dxgvmb_send_create_allocation g adapter args info o =
        { ret := e, events := [] }) ∧
    (∀ (g : DxgGlobal) (adapter : Option Nat) (context object_count : Nat)
        (objects : List Nat) (context_count : Nat) (contexts : List Nat)
        (fence_count : Nat) (fences : Option (List Nat)) (o : SignalOracle),
      o.allocOk = true →
      (dxgvmb_send_signal_sync_object g adapter context object_count objects
        context_count contexts fence_count fences false o).ret = o.sendRet ∧
      (Event.sendSync ∈ (dxgvmb_send_signal_sync_object g adapter context
          object_count objects context_count contexts fence_count fences
          false o).events ∨
       Event.sendAsync ∈ (dxgvmb_send_signal_sync_object g adapter context
          object_count objects context_count contexts fence_count fences
          false o).events)) := by
  refine ⟨?_, ?_, ?_, ?_⟩
  · intro g adapter args info o h
    simp only [dxgvmb_send_create_allocation]
    rw [if_pos h]
  · intro infos
    induction infos with
    | nil =>
      intro acc e h
      simp [compute_priv_size] at h
    | cons a rest ih =>
      intro acc e h
      simp only [compute_priv_size] at h
      split_ifs at h with h1 h2
      · simp only [Except.error.injEq] at h
        exact h.symm
      · simp only [Except.error.injEq] at h
        exact h.symm
      · exact ih _ _ h
  · intro g adapter args info o e h1 h2 hcps
    simp only [dxgvmb_send_create_allocation]
    rw [if_neg (by omega), hcps]
  · intro g adapter context object_count objects context_count contexts
      fence_count fences o ho
    simp only [dxgvmb_send_signal_sync_object]
    split
    case _ er evs heq =>
      rw [ho] at heq
      obtain ⟨m, evs', hok⟩ := init_message_true_ok g adapter _
      rw [hok] at heq
      simp at heq
    case _ m evs heq =>
      simp only [Bool.false_and, Bool.and_false, Bool.false_eq_true,
        if_false]
      cases hasync : g.async_msg_enabled
      · exact ⟨rfl, Or.inl (by simp)⟩
      · exact ⟨rfl, Or.inr (by simp)⟩

/-- Witness for the C1 amended theorem at concrete inputs. -/
theorem create_allocation_size_validation_witness :
    dxgvmb_send_create_allocation
      { vmbus_ver := 0, async_msg_enabled := false, mmiospace_base := 0,
        mmiospace_size := 0 }
      (some 1) { private_runtime_data_size := 131072, priv_drv_data_size := 0 }
      [] { resultAllocOk := true, sizeResultAllocOk := true, getSizeRet := 0,
           allocationSizes := [], msgAllocOk := true, copyPrivOk := true,
           rleRet := 0, sendRet := 0, hostStatus := 0, localRet := 0 } =
      { ret := -EOVERFLOW, events := [] } ∧
    dxgvmb_send_create_allocation
      { vmbus_ver := 0, async_msg_enabled := false, mmiospace_base := 0,
        mmiospace_size := 0 }
      (some 1) { private_runtime_data_size := 0, priv_drv_data_size := 0 }
      [{ priv_drv_data_size := 131072, sysmem := false }]
      { resultAllocOk := true, sizeResultAllocOk := true, getSizeRet := 0,
        allocationSizes := [], msgAllocOk := true, copyPrivOk := true,
        rleRet := 0, sendRet := 0, hostStatus := 0, localRet := 0 } =
      { ret := -EOVERFLOW, events := [] } := by
  refine ⟨create_allocation_size_validation.1 _ _ _ _ _ (by decide), ?_⟩
  have h := create_allocation_size_validation.2.2.1
    { vmbus_ver := 0, async_msg_enabled := false, mmiospace_base := 0,
      mmiospace_size := 0 }
    (some 1)
    { private_runtime_data_size := 0, priv_drv_data_size := 0 }
    [{ priv_drv_data_size := 131072, sysmem := false }]
    { resultAllocOk := true, sizeResultAllocOk := true, getSizeRet := 0,
      allocationSizes := [], msgAllocOk := true, copyPrivOk := true,
      rleRet := 0, sendRet := 0, hostStatus := 0, localRet := 0 }
    (-EOVERFLOW)
  exact h (by decide) (by decide) rfl

/-- Witness for C10 at concrete inputs: a zero count is rejected with no
events; a count of 1 builds and sends a request. -/
theorem wait_sync_object_gpu_count_validation_witness :
    dxgvmb_send_wait_sync_object_gpu
      { vmbus_ver := 0, async_msg_enabled := false, mmiospace_base := 0,
        mmiospace_size := 0 } (some 1) 2 0 [] [] false true 0 =
      { ret := -EINVAL, events := [], command := none } ∧
    (dxgvmb_send_wait_sync_object_gpu
      { vmbus_ver := 0, async_msg_enabled := false, mmiospace_base := 0,
        mmiospace_size := 0 } (some 1) 2 1 [5] [6] false true 0).command.isSome =
      true := by
  exact ⟨wait_sync_object_gpu_count_validation.1 _ (some 1) 2 0 [] [] false
           true 0 (Or.inl rfl),
         (wait_sync_object_gpu_count_validation.2 _ (some 1) 2 1 [5] [6]
           false 0 (by decide) (by decide)).1⟩

/-- C5 (at the failing input): the sysmem consistency loop of
`dxgvmb_send_create_allocation` runs whether or not the first element is
tagged sysmem, so a batch of two allocations that are consistently
non-sysmem is rejected with `-EINVAL` (contradicting the code's own
comment, by which the all-sysmem constraint applies only when the first
element's tag is set), while a mixed batch whose first element is
non-sysmem and whose second is sysmem passes the check. -/
theorem create_allocation_sysmem_check_eval :
    dxgvmb_send_create_allocation
      { vmbus_ver := 0, async_msg_enabled := false, mmiospace_base := 0,
        mmiospace_size := 0 }
      (some 1) { private_runtime_data_size := 0, priv_drv_data_size := 0 }
      [{ priv_drv_data_size := 0, sysmem := false },
       { priv_drv_data_size := 0, sysmem := false }]
      { resultAllocOk := false, sizeResultAllocOk := false, getSizeRet := 0,
        allocationSizes := [], msgAllocOk := false, copyPrivOk := false,
        rleRet := 0, sendRet := 0, hostStatus := 0, localRet := 0 } =
      { ret := -EINVAL, events := [] } ∧
    (dxgvmb_send_create_allocation
      { vmbus_ver := 0, async_msg_enabled := false, mmiospace_base := 0,
        mmiospace_size := 0 }
      (some 1) { private_runtime_data_size := 0, priv_drv_data_size := 0 }
      [{ priv_drv_data_size := 0, sysmem := false },
       { priv_drv_data_size := 0, sysmem := true }]
      { resultAllocOk := false, sizeResultAllocOk := false, getSizeRet := 0,
        allocationSizes := [], msgAllocOk := false, copyPrivOk := false,
        rleRet := 0, sendRet := 0, hostStatus := 0, localRet := 0 }).ret ≠
      -EINVAL := by
  decide

/-- C6 counterexample: a failure after the host returned a hardware-queue
handle (the final private-data copy back to the caller fails) leaves the
progress-fence placeholder handle-table entry registered and the
progress-fence memory window mapped: the encoder does not fully unwind
the forward steps. -/
theorem create_hwqueue_partial_unwind_counterexample :
    (dxgvmb_send_create_hwqueue
      { vmbus_ver := 0, async_msg_enabled := false, mmiospace_base := 0,
        mmiospace_size := 0 } (some 1) 16
      { msgAllocOk := true, copyPrivInOk := true, sendRet := 0,
        hostStatus := 0, hostQueueHandle := 7, hostFenceHandle := 9,
        assignQueueOk := true, assignFenceOk := true, mapResult := some 8192,
        copyOutQueueOk := true, copyOutFenceOk := true,
        copyOutCpuVaOk := true, copyOutGpuVaOk := true,
        copyOutPrivOk := false }).ret < 0 ∧
    (dxgvmb_send_create_hwqueue
      { vmbus_ver := 0, async_msg_enabled := false, mmiospace_base := 0,
        mmiospace_size := 0 } (some 1) 16
      { msgAllocOk := true, copyPrivInOk := true, sendRet := 0,
        hostStatus := 0, hostQueueHandle := 7, hostFenceHandle := 9,
        assignQueueOk := true, assignFenceOk := true, mapResult := some 8192,
        copyOutQueueOk := true, copyOutFenceOk := true,
        copyOutCpuVaOk := true, copyOutGpuVaOk := true,
        copyOutPrivOk := false }) =
      { ret := -EINVAL, queueEntry := false, fenceEntry := true,
        hwqueueHandle := 0, mappedAddress := some 8192, destroySent := true,
        events := [Event.heapAlloc 111, Event.sendSync, Event.vmMmap,
                   Event.sendSync] } := by
  decide

/-- C6 amended: on any failure after the host returned a non-zero
hardware-queue handle, `dxgvmb_send_create_hwqueue` issues the
compensating destroy-hwqueue message, and removes the queue handle-table
entry only when `hwqueue->handle` had been set (i.e. both registrations
had completed); the progress-fence placeholder entry and the
progress-fence memory-window mapping are left exactly as the forward path
left them — they are not unwound. -/
theorem create_hwqueue_cleanup_spec :
    ∀ (g : DxgGlobal) (adapter : Option Nat) (priv : Nat)
      (o : HwQueueOracle),
      (create_hwqueue_forward g adapter priv o).cmdQueueV ≠ 0 →
      (create_hwqueue_forward g adapter priv o).ret < 0 →
      (dxgvmb_send_create_hwqueue g adapter priv o).destroySent = true ∧
      (dxgvmb_send_create_hwqueue g adapter priv o).events =
        (create_hwqueue_forward g adapter priv o).events ++
          [Event.sendSync] ∧
      (dxgvmb_send_create_hwqueue g adapter priv o).fenceEntry =
        (create_hwqueue_forward g adapter priv o).fenceEntry ∧
      (dxgvmb_send_create_hwqueue g adapter priv o).mappedAddress =
        (create_hwqueue_forward g adapter priv o).mappedAddress ∧
      (dxgvmb_send_create_hwqueue g adapter priv o).queueEntry =
        (if (create_hwqueue_forward g adapter priv o).hwqueueHandle ≠ 0
         then false
         else (create_hwqueue_forward g adapter priv o).queueEntry) := by
  intro g adapter priv o h1 h2
  unfold dxgvmb_send_create_hwqueue create_hwqueue_cleanup
  rw [if_pos h2, if_pos h1]
  exact ⟨rfl, rfl, rfl, rfl, rfl⟩

/-- Witness for the C6 amended theorem at a concrete input. -/
theorem create_hwqueue_cleanup_spec_witness :
    (dxgvmb_send_create_hwqueue
      { vmbus_ver := 0, async_msg_enabled := false, mmiospace_base := 0,
        mmiospace_size := 0 } (some 1) 0
      { msgAllocOk := true, copyPrivInOk := true, sendRet := 0,
        hostStatus := 0, hostQueueHandle := 5, hostFenceHandle := 6,
        assignQueueOk := true, assignFenceOk := true, mapResult := some 4096,
        copyOutQueueOk := true, copyOutFenceOk := true,
        copyOutCpuVaOk := true, copyOutGpuVaOk := false,
        copyOutPrivOk := true }).destroySent = true := by
  exact (create_hwqueue_cleanup_spec _ (some 1) 0 _ (by decide)
    (by decide)).1

/-- A disjoint bitwise-or of a page-aligned base and a small count is
their sum. -/
theorem lor_aligned_add (base s : Nat) (hb : base % PAGE_SIZE = 0)
    (hs : s < PAGE_SIZE) : base ||| s = base + s := by
  simp only [PAGE_SIZE] at hb hs
  obtain ⟨q, hq⟩ := Nat.dvd_of_mod_eq_zero hb
  subst hq
  have h12 : (4096 : Nat) = 2 ^ 12 := by norm_num
  rw [h12]
  rw [← Nat.mul_add_lt_is_or (by omega : s < 2 ^ 12) q]

/-- A record written as `base_page | (pages_seen - 1)` with a
page-aligned base decodes its count field (the low bits) as
`pages_seen - 1`. -/
theorem record_count_field (base s : Nat) (hb : base % PAGE_SIZE = 0)
    (hs : s < PAGE_SIZE) : (base ||| s) % PAGE_SIZE = s := by
  rw [lor_aligned_add base s hb hs]
  simp only [PAGE_SIZE] at hb hs ⊢
  omega

/-- Loop invariant of the per-allocation RLE loop, from any state
reachable after the first iteration: on success the emitted records
account for every page exactly once, the record total grows by exactly
the number of emitted records and stays within the budget; the only
possible error is `-EOVERFLOW`. -/
theorem rle_go_spec (pages : List Nat) (limit ustart : Nat)
    (halign : ∀ p ∈ pages, p % PAGE_SIZE = 0)
    (hnz : ∀ p ∈ pages, p ≠ 0) :
    ∀ (fuel k base seen used : Nat) (records : List Nat),
      fuel = pages.length + 1 - k →
      1 ≤ k → k ≤ pages.length →
      1 ≤ seen → seen ≤ PAGE_SIZE →
      base % PAGE_SIZE = 0 → base ≠ 0 →
      (records.map (fun v => v % PAGE_SIZE + 1)).sum + seen = k →
      used = ustart + records.length →
      (∀ recs used',
        rle_go pages pages.length limit fuel k base seen used records =
          Except.ok (recs, used') →
        ((recs.map (fun v => v % PAGE_SIZE + 1)).sum = pages.length ∧
         used' = ustart + recs.length ∧ used' ≤ limit)) ∧
      (∀ e,
        rle_go pages pages.length limit fuel k base seen used records =
          Except.error e → e = -EOVERFLOW) := by
  intro fuel
  induction fuel with
  | zero =>
    intro k base seen used records hfuel hk1 hk2 _ _ _ _ _ _
    exact absurd hfuel (by omega)
  | succ n ih =>
    intro k base seen used records hfuel hk1 hk2 hs1 hs2 hba hbz hsum hused
    have hnlt : ¬ pages.length < k := by omega
    simp only [rle_go, if_neg hnlt, if_neg hbz]
    have hlen1 : 1 ≤ pages.length := le_trans hk1 hk2
    have hidx : min k (pages.length - 1) < pages.length := by omega
    have hcmem : pages.getD (min k (pages.length - 1)) 0 ∈ pages := by
      rw [List.getD_eq_getElem pages 0 hidx]
      exact List.getElem_mem hidx
    set c := pages.getD (min k (pages.length - 1)) 0 with hc
    have hca : c % PAGE_SIZE = 0 := halign c hcmem
    have hcz : c ≠ 0 := hnz c hcmem
    have hrec : (base ||| (seen - 1)) % PAGE_SIZE + 1 = seen := by
      rw [record_count_field base (seen - 1) hba
        (by simp only [PAGE_SIZE] at hs2 ⊢; omega)]
      omega
    by_cases hflush : (k ≠ 0 ∧ c ≠ base + seen * PAGE_SIZE) ∨
        seen = PAGE_SIZE ∨ k = pages.length
    · rw [if_pos hflush]
      by_cases hov : used ≥ limit
      · rw [if_pos hov]
        constructor
        · intro recs used' h
          exact absurd h (by simp)
        · intro e h
          simp only [Except.error.injEq] at h
          exact h.symm
      · rw [if_neg hov]
        by_cases hk : k = pages.length
        · have hn0 : n = 0 := by omega
          subst hn0
          simp only [rle_go]
          constructor
          · intro recs used' h
            simp only [Except.ok.injEq, Prod.mk.injEq] at h
            obtain ⟨hr, hu⟩ := h
            subst hr
            subst hu
            refine ⟨?_, ?_, by omega⟩
            · simp only [List.map_append, List.sum_append, List.map_cons,
                List.map_nil, List.sum_cons, List.sum_nil]
              omega
            · simp only [List.length_append, List.length_cons,
                List.length_nil]
              omega
          · intro e h
            simp at h
        · exact ih (k + 1) c 1 (used + 1)
            (records ++ [base ||| (seen - 1)])
            (by omega) (by omega) (by omega) (by omega)
            (by simp only [PAGE_SIZE]; omega) hca hcz
            (by simp only [List.map_append, List.sum_append, List.map_cons,
                  List.map_nil, List.sum_cons, List.sum_nil]
                omega)
            (by simp only [List.length_append, List.length_cons,
                  List.length_nil]
                omega)
    · rw [if_neg hflush]
      push_neg at hflush
      exact ih (k + 1) base (seen + 1) used records
        (by omega) (by omega) (by omega) (by omega)
        (by omega) hba hbz (by omega) hused

/-- The first loop iteration (`pages_processed = 0`) only latches the
first page as the base of the current run. -/
theorem rle_encode_alloc_start (pages : List Nat) (limit used : Nat)
    (h1 : 1 ≤ pages.length) :
    rle_encode_alloc pages limit used =
      rle_go pages pages.length limit pages.length 1 (pages.getD 0 0) 1
        used [] := by
  unfold rle_encode_alloc
  simp only [rle_go]
  rw [if_neg (by omega : ¬ pages.length < 0)]
  simp only [Nat.zero_min, if_true]
  rw [if_neg (by
    push_neg
    refine ⟨fun h => absurd rfl h, ?_, by omega⟩
    simp only [PAGE_SIZE]
    omega)]

/-- Per-allocation RLE coverage: the records emitted for one allocation
cover exactly its page list, the running record total grows by their
number and stays within the budget, and the only error is
`-EOVERFLOW`. -/
theorem rle_encode_alloc_spec (pages : List Nat) (limit used : Nat)
    (hne : pages ≠ [])
    (halign : ∀ p ∈ pages, p % PAGE_SIZE = 0)
    (hnz : ∀ p ∈ pages, p ≠ 0) :
    (∀ recs used',
      rle_encode_alloc pages limit used = Except.ok (recs, used') →
      ((recs.map (fun v => v % PAGE_SIZE + 1)).sum = pages.length ∧
       used' = used + recs.length ∧ used' ≤ limit)) ∧
    (∀ e, rle_encode_alloc pages limit used = Except.error e →
      e = -EOVERFLOW) := by
  have hlen : 1 ≤ pages.length := by
    cases pages with
    | nil => simp at hne
    | cons a l => simp
  have hmem0 : pages.getD 0 0 ∈ pages := by
    rw [List.getD_eq_getElem pages 0 (by omega)]
    exact List.getElem_mem (by omega)
  rw [rle_encode_alloc_start pages limit used hlen]
  exact rle_go_spec pages limit used halign hnz pages.length 1
    (pages.getD 0 0) 1 used []
    (by omega) (by omega) hlen (by omega)
    (by simp only [PAGE_SIZE]; omega)
    (halign _ hmem0) (hnz _ hmem0)
    (by simp) (by simp)

/-- The whole-batch RLE loop threads the running record total through
the allocations; each processed allocation's records cover exactly its
page list, skipped allocations emit no records, and the only error is
`-EOVERFLOW`. -/
theorem copy_sysmem_rle_batch_spec (allocs : List (Option (List Nat)))
    (limit : Nat) :
    ∀ used : Nat,
      (∀ pages, some pages ∈ allocs →
        pages ≠ [] ∧ (∀ p ∈ pages, p % PAGE_SIZE = 0) ∧
        (∀ p ∈ pages, p ≠ 0)) →
      (∀ rs, copy_sysmem_pages_rle_data allocs limit used = Except.ok rs →
        List.Forall₂ (fun a r =>
          match a with
          | some pages =>
            (r.map (fun v => v % PAGE_SIZE + 1)).sum = pages.length
          | none => r = []) allocs rs) ∧
      (∀ e, copy_sysmem_pages_rle_data allocs limit used = Except.error e →
        e = -EOVERFLOW) := by
  induction allocs with
  | nil =>
    intro used _
    constructor
    · intro rs h
      simp only [copy_sysmem_pages_rle_data, Except.ok.injEq] at h
      subst h
      exact List.Forall₂.nil
    · intro e h
      simp [copy_sysmem_pages_rle_data] at h
  | cons a rest ih =>
    intro used hinfo
    cases a with
    | none =>
      have hinfo' : ∀ pages, some pages ∈ rest →
          pages ≠ [] ∧ (∀ p ∈ pages, p % PAGE_SIZE = 0) ∧
          (∀ p ∈ pages, p ≠ 0) := by
        intro pages hmem
        exact hinfo pages (List.mem_cons_of_mem _ hmem)
      constructor
      · intro rs h
        simp only [copy_sysmem_pages_rle_data] at h
        cases hrest : copy_sysmem_pages_rle_data rest limit used with
        | error e => rw [hrest] at h; simp [Except.map] at h
        | ok rs' =>
          rw [hrest] at h
          simp only [Except.map, Except.ok.injEq] at h
          subst h
          exact List.Forall₂.cons rfl ((ih used hinfo').1 rs' hrest)
      · intro e h
        simp only [copy_sysmem_pages_rle_data] at h
        cases hrest : copy_sysmem_pages_rle_data rest limit used with
        | error e' =>
          rw [hrest] at h
          simp only [Except.map, Except.error.injEq] at h
          subst h
          exact (ih used hinfo').2 _ hrest
        | ok rs' => rw [hrest] at h; simp [Except.map] at h
    | some pages =>
      have hp := hinfo pages (List.mem_cons_self _ _)
      have hinfo' : ∀ ps, some ps ∈ rest →
          ps ≠ [] ∧ (∀ p ∈ ps, p % PAGE_SIZE = 0) ∧ (∀ p ∈ ps, p ≠ 0) := by
        intro ps hmem
        exact hinfo ps (List.mem_cons_of_mem _ hmem)
      have halloc := rle_encode_alloc_spec pages limit used hp.1 hp.2.1
        hp.2.2
      constructor
      · intro rs h
        simp only [copy_sysmem_pages_rle_data] at h
        cases henc : rle_encode_alloc pages limit used with
        | error e => rw [henc] at h; simp at h
        | ok p =>
          obtain ⟨records, used'⟩ := p
          rw [henc] at h
          dsimp only at h
          cases hrest : copy_sysmem_pages_rle_data rest limit used' with
          | error e => rw [hrest] at h; simp [Except.map] at h
          | ok rs' =>
            rw [hrest] at h
            simp only [Except.map, Except.ok.injEq] at h
            subst h
            exact List.Forall₂.cons (halloc.1 records used' henc).1
              ((ih used' hinfo').1 rs' hrest)
      · intro e h
        simp only [copy_sysmem_pages_rle_data] at h
        cases henc : rle_encode_alloc pages limit used with
        | error e' =>
          rw [henc] at h
          simp only [Except.error.injEq] at h
          subst h
          exact halloc.2 _ henc
        | ok p =>
          obtain ⟨records, used'⟩ := p
          rw [henc] at h
          dsimp only at h
          cases hrest : copy_sysmem_pages_rle_data rest limit used' with
          | error e' =>
            rw [hrest] at h
            simp only [Except.map, Except.error.injEq] at h
            subst h
            exact (ih used' hinfo').2 _ hrest
          | ok rs' => rw [hrest] at h; simp [Except.map] at h

/-- C4: for every system-memory-backed allocation processed by
`copy_sysmem_pages_rle_data` (with non-empty, page-aligned, non-null
pinned page lists), the RLE records emitted for that allocation cover
exactly its page list — the sum over its records of (count field + 1)
equals its page count; the running record total never exceeds the
reserved budget on success; and whenever the total would exceed the
budget the function returns `-EOVERFLOW` instead of writing further
records. -/
theorem copy_sysmem_pages_rle_data_spec :
    (∀ (pages : List Nat) (limit used : Nat),
      pages ≠ [] →
      (∀ p ∈ pages, p % PAGE_SIZE = 0) →
      (∀ p ∈ pages, p ≠ 0) →
      (∀ recs used',
        rle_encode_alloc pages limit used = Except.ok (recs, used') →
        ((recs.map (fun v => v % PAGE_SIZE + 1)).sum = pages.length ∧
         used' = used + recs.length ∧ used' ≤ limit)) ∧
      (∀ e, rle_encode_alloc pages limit used = Except.error e →
        e = -EOVERFLOW)) ∧
    (∀ (allocs : List (Option (List Nat))) (limit used : Nat),
      (∀ pages, some pages ∈ allocs →
        pages ≠ [] ∧ (∀ p ∈ pages, p % PAGE_SIZE = 0) ∧
        (∀ p ∈ pages, p ≠ 0)) →
      (∀ rs, copy_sysmem_pages_rle_data allocs limit used = Except.ok rs →
        List.Forall₂ (fun a r =>
          match a with
          | some pages =>
            (r.map (fun v => v % PAGE_SIZE + 1)).sum = pages.length
          | none => r = []) allocs rs) ∧
      (∀ e, copy_sysmem_pages_rle_data allocs limit used = Except.error e →
        e = -EOVERFLOW)) := by
  constructor
  · intro pages limit used hne ha hz
    exact rle_encode_alloc_spec pages limit used hne ha hz
  · intro allocs limit used hinfo
    exact copy_sysmem_rle_batch_spec allocs limit used hinfo

/-- Witness for C4 at concrete inputs: pages `[4096, 8192, 20480]` (a
contiguous run of two pages, then a break) encode to records
`[4097, 20480]` covering all 3 pages within a budget of 5; a one-page
allocation followed by a skipped allocation yields `[[4096], []]`. -/
theorem copy_sysmem_pages_rle_data_spec_witness :
    (([4097, 20480].map (fun v => v % PAGE_SIZE + 1)).sum = 3 ∧
     (2 : Nat) = 0 + 2 ∧ (2 : Nat) ≤ 5) ∧
    List.Forall₂ (fun a r =>
      match a with
      | some pages =>
        (List.map (fun v => v % PAGE_SIZE + 1) r).sum = pages.length
      | none => r = []) [some [4096], none] [[4096], []] := by
  constructor
  · exact (copy_sysmem_pages_rle_data_spec.1 [4096, 8192, 20480] 5 0
      (by decide) (by decide) (by decide)).1 [4097, 20480] 2 rfl
  · refine (copy_sysmem_pages_rle_data_spec.2 [some [4096], none] 5 0
      ?_).1 [[4096], []] rfl
    intro pages hmem
    simp only [List.mem_cons, List.not_mem_nil, or_false,
      Option.some.injEq, reduceCtorEq] at hmem
    subst hmem
    exact ⟨by decide, by decide, by decide⟩

end Dxg
